import Mathlib

/-!
Verification of the staging-to-warehouse reconciliation engine of
`etl_scripts/from_staging_to_dwh.py`: a shallow embedding of the SCD2
dimension versioner (`load_dim_student` / `load_dim_teacher`), the
change-record merger, the key-resolution and fact-materialization logic
(`load_fact_lessons`, `load_fact_homeworks`, `load_dim_subject`), and the
per-table orchestration (`run_all_loads`, `main`), together with theorems
settling the specification's claims.

Modelling conventions:
* a timestamp is a whole number of minutes since a fixed epoch (`Nat`);
  a calendar date is its day number as computed by `daysFromCivil`
  (proleptic Gregorian civil-from-days arithmetic, restricted to positive
  years so plain `Nat` arithmetic suffices);
* a pandas `NaT`/missing cell is `Option.none`; pandas `==` against `NaT`
  is false, which `optTsEq` mirrors;
* dataframe row order is list order, and the integer index produced by
  `concat(..., ignore_index=True)` is made explicit with `idxFrom` where
  the source consults `.index`;
* `sort_values` is modelled with `List.insertionSort`; the source's
  quicksort is unstable, so the relative order of rows that tie on the
  sort column is unspecified there — no theorem below depends on tie
  order;
* date/datetime cells that may be absent or unparseable are `RawDt`;
* decimals are `Rat`; external collaborators (S3 listing and reads,
  ClickHouse truncates and inserts) are passed in as explicit data, and
  warehouse writes are assumed to succeed except where a claim is about
  failure reporting, in which case outcomes are explicit `Except` values.
-/

/-- Day number of a proleptic-Gregorian civil date (Hinnant's
`days_from_civil`, shifted so that the result is a `Nat`; only
differences of day numbers matter below). Valid for `y ≥ 1`,
`1 ≤ m ≤ 12`. -/
def daysFromCivil (y m d : Nat) : Nat :=
  let y' := if m ≤ 2 then y - 1 else y
  let era := y' / 400
  let yoe := y' % 400
  let mp := (m + 9) % 12
  let doy := (153 * mp + 2) / 5 + (d - 1)
  let doe := yoe * 365 + yoe / 4 - yoe / 100 + doy
  era * 146097 + doe

/-- The open-ended sentinel date 2099-12-31 (`future_date` in the source). -/
def sentinelDay : Nat := daysFromCivil 2099 12 31

def minutesPerDay : Nat := 1440

/-- `.date()` of a timestamp measured in minutes: its day number. -/
def tsDay (t : Nat) : Nat := t / minutesPerDay

/-- A civil calendar date. -/
structure Date where
  y : Nat
  m : Nat
  d : Nat
deriving Repr, DecidableEq, Inhabited

def Date.ord (dt : Date) : Nat := daysFromCivil dt.y dt.m dt.d

/-- A parsed datetime value: a date plus a minute-of-day. -/
structure DtVal where
  date : Date
  minute : Nat
deriving Repr, DecidableEq, Inhabited

def dtMinutes (v : DtVal) : Nat := v.date.ord * minutesPerDay + v.minute

/-- A raw date/datetime cell as it arrives from a parquet batch: absent
(`NaN`/`None`), present but not parseable by `pd.to_datetime`, or a
parsed value. -/
inductive RawDt where
  | missing
  | unparseable
  | val (v : DtVal)
deriving Repr, DecidableEq, Inhabited

/-- `pd.notna` on a raw cell: only an absent cell is `NA`. -/
def RawDt.notna : RawDt → Bool
  | .missing => false
  | _ => true

/-- `safe_int` with its default `0`: `pd.isna` (and conversion failure,
collapsed into `none`) yields the default. -/
def safe_int (v : Option Int) : Int := v.getD 0

/-- `safe_decimal` with its default `Decimal('0.0')`. -/
def safe_decimal (v : Option Rat) : Rat := v.getD 0

/-- `safe_str` with its default `''`. -/
def safe_str (v : Option String) : String := v.getD ""

/-- The integer `YYYYMMDD` encoding (`strftime('%Y%m%d')` read back as an
integer). -/
def yyyymmdd (dt : Date) : Nat := dt.y * 10000 + dt.m * 100 + dt.d

/-- `safe_date_key`: the `YYYYMMDD` integer of a parseable cell, `0` for
a missing or unparseable one. -/
def safe_date_key : RawDt → Nat
  | .val v => yyyymmdd v.date
  | _ => 0

/-- `safe_date_key` applied to a value that may itself be Python `None`
(as stored in a materialized row): `pd.isna(None)` is true, so `None`
also yields `0`. -/
def safe_date_key_opt : Option RawDt → Nat
  | some v => safe_date_key v
  | none => 0

/-- `safe_datetime`: the parsed datetime, or `None` when missing or
unparseable. -/
def safe_datetime : RawDt → Option DtVal
  | .val v => some v
  | _ => none

/-- `safe_datetime_to_date`: `pd.to_datetime(x).date()`, or `None` when
missing or unparseable. -/
def safe_datetime_to_date : RawDt → Option Date
  | .val v => some v.date
  | _ => none

/-! ### The SCD2 versioner (`load_dim_student` lines 528–582,
`load_dim_teacher` lines 693–747)

The versioner consumes the merged change history: each row carries the
natural key (`student_id`/`teacher_id`) and the normalized `valid_from`
timestamp (`NaT` possible). Attribute columns do not influence version
boundaries and are omitted from the record. -/

/-- One row of the merged change history, as seen by the versioner. -/
structure SrcRecord where
  key : Int
  validFrom : Option Nat
deriving Repr, DecidableEq, Inhabited

/-- Pairwise maximum skipping `NaT`, as `DataFrame.max(axis=1)` and the
grouped `max()` behave. -/
def maxOpt : Option Nat → Option Nat → Option Nat
  | none, v => v
  | some a, none => some a
  | some a, some b => some (max a b)

/-- pandas `==` on timestamp cells: comparisons involving `NaT` are
false. -/
def optTsEq : Option Nat → Option Nat → Bool
  | some a, some b => a == b
  | _, _ => false

/-- The ascending, `NaT`-last order `sort_values('valid_from')` uses. -/
def vfLe : Option Nat → Option Nat → Bool
  | some a, some b => decide (a ≤ b)
  | _, none => true
  | none, some _ => false

/-- Strict version of `vfLe` (false on any `NaT`). -/
def vfLt : Option Nat → Option Nat → Bool
  | some a, some b => decide (a < b)
  | _, _ => false

/-- `groupby(key)['valid_from'].max()` for one key, merged back onto each
row (`max_updated_at` in the source). -/
def groupMax (rs : List SrcRecord) (k : Int) : Option Nat :=
  ((rs.filter (fun r => r.key == k)).map (fun r => r.validFrom)).foldl maxOpt none

/-- `is_current`: this row's `valid_from` equals the per-key maximum
(line 541 / 706). -/
def isCur (rs : List SrcRecord) (r : SrcRecord) : Bool :=
  optTsEq r.validFrom (groupMax rs r.key)

/-- The dataframe index made explicit: position labels starting at `n`. -/
def idxFrom {α : Type} (n : Nat) : List α → List (Nat × α)
  | [] => []
  | a :: l => (n, a) :: idxFrom (n + 1) l

/-- `all_students[all_students['student_id'] == student_id]`, keeping the
index labels. -/
def sameKeyIndexed (rs : List SrcRecord) (k : Int) : List (Nat × SrcRecord) :=
  (idxFrom 0 rs).filter (fun p => p.2.key == k)

/-- The sort order of `same_id_records.sort_values('valid_from')` on
indexed rows. -/
def vfRel (a b : Nat × SrcRecord) : Prop := vfLe a.2.validFrom b.2.validFrom = true

instance : DecidableRel vfRel := fun a b => decEq (vfLe a.2.validFrom b.2.validFrom) true

/-- `valid_to` of a row the source did not mark current (lines 567–582 /
732–747): sort the same-key rows by `valid_from`; find the first index
label whose `valid_from` equals this row's (pandas `==`, so a `NaT` row
matches nothing and falls back to the sentinel); take the rows with a
strictly larger index label; `valid_to` is the first one's
`valid_from.date()` minus one day, or the sentinel if there is none.
`none` stands for the undefined `NaT.date()` of a `NaT` successor. -/
def validToNC (rs : List SrcRecord) (r : SrcRecord) : Option Nat :=
  match (List.insertionSort vfRel (sameKeyIndexed rs r.key)).find?
      (fun p => optTsEq p.2.validFrom r.validFrom) with
  | none => some sentinelDay
  | some c =>
    match (List.insertionSort vfRel (sameKeyIndexed rs r.key)).filter
        (fun p => decide (c.1 < p.1)) with
    | [] => some sentinelDay
    | q :: _ =>
      match q.2.validFrom with
      | some t => some (tsDay t - 1)
      | none => none

/-- One emitted `DimensionVersion` row (the columns the claims are
about; attribute columns and the mirrored `updated_at` are omitted). -/
structure DimRow where
  key : Int
  valid_from : Nat
  valid_to : Option Nat
  is_current : Bool
deriving Repr, DecidableEq, Inhabited

/-- The row the per-record loop body (lines 550–637 / 715–802) emits:
`valid_from` is the record's own `valid_from.date()`, defaulted to the
processing date when it cannot be determined; a current row's `valid_to`
is the sentinel, otherwise `validToNC` applies. -/
def emitRow (rs : List SrcRecord) (today : Nat) (r : SrcRecord) : DimRow :=
  { key := r.key
    valid_from :=
      match r.validFrom with
      | some t => tsDay t
      | none => today
    valid_to := if isCur rs r then some sentinelDay else validToNC rs r
    is_current := isCur rs r }

/-- The full set of emitted rows: one per merged change record, in
dataframe order. -/
def dimLoad (rs : List SrcRecord) (today : Nat) : List DimRow :=
  rs.map (emitRow rs today)

/-! ### The change-record merger (lines 515–526 / 680–691)

`all_students.merge(all_users[...], on='user_id', how='left')` followed by
`valid_from = max(updated_at_student, updated_at_user)` (a row-wise `max`
that skips `NaT`). A left merge keeps every student row; a student with
several matching user snapshots yields one merged row per match, in
left-then-right order; a student with no match keeps `NaT` user columns.
Only the key and the derived `valid_from` feed the versioner. -/

structure StudentSrc where
  student_id : Int
  user_id : Int
  updated_at : Option Nat
deriving Repr, DecidableEq, Inhabited

structure UserSrc where
  user_id : Int
  updated_at : Option Nat
deriving Repr, DecidableEq, Inhabited

def mergeWithUsers : List StudentSrc → List UserSrc → List SrcRecord
  | [], _ => []
  | s :: rest, users =>
    (match users.filter (fun u => u.user_id == s.user_id) with
      | [] => [{ key := s.student_id, validFrom := s.updated_at }]
      | ms => ms.map (fun u => { key := s.student_id, validFrom := maxOpt s.updated_at u.updated_at })) ++
    mergeWithUsers rest users

/-- `load_dim_student` (lines 477–640) after the batches have been read
and concatenated: an empty student history returns success with no rows
(lines 501–503); a non-empty student history with an empty user history
skips the merge, so line 530 reads the absent `valid_from` column and the
load raises `KeyError` out of the function; otherwise the merged history
is versioned and emitted. `load_dim_teacher` is the same algorithm. -/
def load_dim_student_pipeline (students : List StudentSrc) (users : List UserSrc)
    (today : Nat) : Except String (List DimRow) :=
  if students.isEmpty then .ok []
  else if users.isEmpty then .error "KeyError: valid_from"
  else .ok (dimLoad (mergeWithUsers students users) today)

/-! ### Key resolution and fact materialization -/

/-- A `teacher_subjects` record (the columns the resolution reads). -/
structure TSRec where
  teacher_subject_id : Option Int
  teacher_id : Option Int
  subject_id : Option Int
deriving Repr, DecidableEq, Inhabited

/-- A raw lesson record. `teacher_id` is doubly optional: the outer level
is whether the column exists at all (`'teacher_id' in row`, line 351),
the inner whether the cell is `NaN`. -/
structure LessonSrc where
  lesson_id : Option Int
  student_id : Option Int
  teacher_subject_id : Option Int
  teacher_id : Option (Option Int)
  scheduled_start_time : RawDt
  scheduled_end_time : RawDt
  status : Option (Option String)
  updated_at : RawDt
deriving Repr, DecidableEq, Inhabited

/-- A raw teacher record (the columns `load_fact_lessons` reads). -/
structure TeacherSrc where
  teacher_id : Option Int
  hourly_rate : Option Rat
  updated_at : Option Nat
deriving Repr, DecidableEq, Inhabited

/-- The per-row rescan of the `teacher_subjects` batches (lines 340–348 /
241–247): the first record across the concatenated batches (file order,
then row order) whose `teacher_subject_id` equals the probe; a `NaN` id
matches nothing. -/
def findTS (tss : List TSRec) (tsid : Int) : Option TSRec :=
  tss.find? (fun t => t.teacher_subject_id == some tsid)

/-- Lines 329–352: resolve `(teacher_sk, subject_sk)` for a lesson. On a
hit both come from the matched record; on a miss, a lesson that itself
carries a `teacher_id` column supplies `teacher_sk` (line 352), otherwise
both stay at the unresolved marker `0`. -/
def resolveLessonKeys (tss : List TSRec) (row : LessonSrc) : Int × Int :=
  match findTS tss (safe_int row.teacher_subject_id) with
  | some ts => (safe_int ts.teacher_id, safe_int ts.subject_id)
  | none =>
    match row.teacher_id with
    | some w => (safe_int w, 0)
    | none => (0, 0)

/-- Lines 312–317: `latest_teachers` — per `teacher_id`, a record with the
maximal `updated_at` (`NaT` counts as smallest; the unstable sort leaves
tie order unspecified in the source, and no claim depends on it). Here
restricted to one probed id, which is all lines 356–362 consult. -/
def latestTeacherFor (teachers : List TeacherSrc) (tid : Int) : Option TeacherSrc :=
  (teachers.filter (fun t => t.teacher_id == some tid)).foldl
    (fun acc t =>
      match acc with
      | none => some t
      | some a => if vfLt a.updated_at t.updated_at then some t else some a)
    none

/-- Lines 354–362: `teacher_cost_amount` from the latest teacher record,
`0.0` when `teacher_sk` is unresolved/nonpositive or no teacher data was
loaded at all. -/
def teacherCost (teachers : List TeacherSrc) (teacher_sk : Int) : Rat :=
  if decide (0 < teacher_sk) && !teachers.isEmpty then
    match latestTeacherFor teachers teacher_sk with
    | some t => safe_decimal t.hourly_rate
    | none => 0
  else 0

/-- Lines 364–372: `duration_minutes`, defaulting to 60 when either
timestamp is absent or parsing fails, otherwise the difference in
minutes. -/
def durationMinutes (row : LessonSrc) : Int :=
  if row.scheduled_start_time.notna && row.scheduled_end_time.notna then
    match row.scheduled_start_time, row.scheduled_end_time with
    | .val s, .val e => (dtMinutes e : Int) - (dtMinutes s : Int)
    | _, _ => 60
  else 60

/-- A materialized `Fact_Lessons` row (lines 390–402). `time_start`
stores the raw cell when it is not `NA`, Python `None` otherwise. -/
structure FactLessonRow where
  lesson_fact_id : Int
  date_key : Nat
  time_start : Option RawDt
  student_sk : Int
  teacher_sk : Int
  subject_sk : Int
  lesson_id_nk : Int
  duration_minutes : Int
  teacher_cost_amount : Rat
  lesson_status : String
  updated_at : Option DtVal
deriving Repr, DecidableEq, Inhabited

def mkFactLessonRow (tss : List TSRec) (teachers : List TeacherSrc)
    (row : LessonSrc) : FactLessonRow :=
  let ks := resolveLessonKeys tss row
  { lesson_fact_id := safe_int row.lesson_id
    date_key := safe_date_key row.scheduled_start_time
    time_start := if row.scheduled_start_time.notna then some row.scheduled_start_time else none
    student_sk := safe_int row.student_id
    teacher_sk := ks.1
    subject_sk := ks.2
    lesson_id_nk := safe_int row.lesson_id
    duration_minutes := durationMinutes row
    teacher_cost_amount := teacherCost teachers ks.1
    lesson_status := safe_str (row.status.getD (some "scheduled"))
    updated_at := safe_datetime row.updated_at }

/-- A raw homework record. -/
structure HomeworkSrc where
  homework_id : Option Int
  lesson_id : Option Int
  created_at : RawDt
  deadline : RawDt
  submitted_at : RawDt
  score : Option Int
  status : Option (Option String)
  updated_at : RawDt
deriving Repr, DecidableEq, Inhabited

/-- Lines 219–248: the homework chain `homework → lesson →
teacher_subject → subject`. A missing lesson leaves both keys at `0`; a
found lesson fixes `student_sk` and a missing teacher-subject hop leaves
`subject_sk` at `0`. -/
def resolveHomeworkKeys (lessons : List LessonSrc) (tss : List TSRec)
    (row : HomeworkSrc) : Int × Int :=
  match lessons.find? (fun l => l.lesson_id == some (safe_int row.lesson_id)) with
  | none => (0, 0)
  | some l =>
    match findTS tss (safe_int l.teacher_subject_id) with
    | none => (safe_int l.student_id, 0)
    | some ts => (safe_int l.student_id, safe_int ts.subject_id)

/-- A materialized `Fact_Homeworks` row (lines 266–277).
`date_submitted_key` and `score` are Python `None` (not zero) when the
source cell is `NA`. -/
structure FactHomeworkRow where
  homework_fact_id : Int
  date_assigned_key : Nat
  date_deadline_key : Nat
  date_submitted_key : Option Nat
  student_sk : Int
  subject_sk : Int
  homework_id_nk : Int
  score : Option Int
  homework_status : String
  updated_at : Option DtVal
deriving Repr, DecidableEq, Inhabited

def mkFactHomeworkRow (lessons : List LessonSrc) (tss : List TSRec)
    (row : HomeworkSrc) : FactHomeworkRow :=
  let ks := resolveHomeworkKeys lessons tss row
  { homework_fact_id := safe_int row.homework_id
    date_assigned_key := safe_date_key row.created_at
    date_deadline_key := safe_date_key row.deadline
    date_submitted_key :=
      if row.submitted_at.notna then some (safe_date_key row.submitted_at) else none
    student_sk := ks.1
    subject_sk := ks.2
    homework_id_nk := safe_int row.homework_id
    score := if row.score.isSome then some (safe_int row.score) else none
    homework_status := safe_str (row.status.getD (some "assigned"))
    updated_at := safe_datetime row.updated_at }

/-! ### Table loads and orchestration -/

/-- A warehouse write issued by a load, in order. -/
inductive DbAction where
  | truncateTable (table : String)
  | insertRow (table : String)
deriving Repr, DecidableEq

/-- What one table load produced: its reported success, the rows it
emitted, and the writes it issued (truncate first). Writes themselves are
assumed to succeed — write failures are external to the engine. -/
structure LoadResult (ρ : Type) where
  ok : Bool
  rows : List ρ
  actions : List DbAction
deriving Repr

/-- A raw subject record. -/
structure SubjectSrc where
  subject_id : Option Int
  name : Option String
deriving Repr, DecidableEq, Inhabited

/-- An emitted `Dim_Subject` row (lines 183–187). -/
structure SubjectRowOut where
  subject_sk : Int
  subject_id_nk : Int
  subject_name : String
deriving Repr, DecidableEq, Inhabited

def mkSubjectRow (r : SubjectSrc) : SubjectRowOut :=
  { subject_sk := safe_int r.subject_id
    subject_id_nk := safe_int r.subject_id
    subject_name := safe_str r.name }

/-- Code-point lexicographic order on character lists — the order Python's
`sorted` applies to `str` keys. -/
def strLeData : List Char → List Char → Bool
  | [], _ => true
  | _ :: _, [] => false
  | a :: as, b :: bs =>
    if a.toNat < b.toNat then true
    else if b.toNat < a.toNat then false
    else strLeData as bs

def strLe (a b : String) : Bool := strLeData a.data b.data

/-- `str.endswith(post)`, computed on the character lists. -/
def strEndsWith (s post : String) : Bool :=
  post.data.reverse.isPrefixOf s.data.reverse

/-- `strLe` as a relation, for sorting. -/
def strRel (a b : String) : Prop := strLe a b = true

instance : DecidableRel strRel := fun a b => decEq (strLe a b) true

/-- `list_s3_files` (lines 48–60): the object keys under a given prefix
listing that end in `.parquet`, sorted ascending. -/
def list_s3_files (keys : List String) : List String :=
  List.insertionSort strRel (keys.filter (fun k => strEndsWith k ".parquet"))

/-- `get_latest_subject_file` (lines 73–79): the last sorted key, `None`
when no `.parquet` object exists. -/
def get_latest_subject_file (keys : List String) : Option String :=
  (list_s3_files keys).getLast?

/-- `read_parquet_from_s3` over the supplied object store: the content of
the named object (first match), an empty frame when absent. -/
def lookupBatch (objects : List (String × List SubjectSrc)) (key : String) : List SubjectSrc :=
  ((objects.find? (fun o => o.1 == key)).map (fun o => o.2)).getD []

/-- `load_dim_subject` (lines 158–192): truncate, then read only the
latest subjects file; report failure when there is none. -/
def load_dim_subject (objects : List (String × List SubjectSrc)) : LoadResult SubjectRowOut :=
  match get_latest_subject_file (objects.map (fun o => o.1)) with
  | none => { ok := false, rows := [], actions := [.truncateTable "Dim_Subject"] }
  | some key =>
    let rows := (lookupBatch objects key).map mkSubjectRow
    { ok := true
      rows := rows
      actions := .truncateTable "Dim_Subject" :: rows.map (fun _ => .insertRow "Dim_Subject") }

/-- `load_fact_lessons` (lines 285–408): truncate, then succeed with no
rows when no lesson file exists, else one row per lesson record across
all batches. -/
def load_fact_lessons (batches : List (List LessonSrc)) (tss : List TSRec)
    (teachers : List TeacherSrc) : LoadResult FactLessonRow :=
  if batches.isEmpty then { ok := true, rows := [], actions := [.truncateTable "Fact_Lessons"] }
  else
    let rows := batches.flatten.map (mkFactLessonRow tss teachers)
    { ok := true
      rows := rows
      actions := .truncateTable "Fact_Lessons" :: rows.map (fun _ => .insertRow "Fact_Lessons") }

/-- `load_fact_homeworks` (lines 194–283), analogously. -/
def load_fact_homeworks (batches : List (List HomeworkSrc)) (lessons : List LessonSrc)
    (tss : List TSRec) : LoadResult FactHomeworkRow :=
  if batches.isEmpty then { ok := true, rows := [], actions := [.truncateTable "Fact_Homeworks"] }
  else
    let rows := batches.flatten.map (mkFactHomeworkRow lessons tss)
    { ok := true
      rows := rows
      actions := .truncateTable "Fact_Homeworks" :: rows.map (fun _ => .insertRow "Fact_Homeworks") }

/-- The six tables in the order `run_all_loads` visits them. -/
def tableNames : List String :=
  ["Dim_Subject", "Fact_Homeworks", "Fact_Lessons", "Fact_Sales", "Dim_Student", "Dim_Teacher"]

/-- `run_all_loads` (lines 807–835): call each load in order and collect
its boolean result into the per-table map. A load is either a returned
boolean (`.ok`) or an escaping exception (`.error`); an exception
propagates immediately, so later loads never run and no map is built. -/
def run_all_loads (outcomes : List (String × Except Unit Bool)) :
    Except Unit (List (String × Bool)) :=
  outcomes.mapM (fun o => (o.2).map (fun b => (o.1, b)))

/-- `main` (lines 837–858): exit 1 on a connectivity failure, 1 when the
loads raised (caught at line 856) or any table reported failure, else 0. -/
def mainExit (conn : Bool) (outcomes : List (String × Except Unit Bool)) : Nat :=
  if conn then
    match run_all_loads outcomes with
    | .error _ => 1
    | .ok results => if results.all (fun r => r.2) then 0 else 1
  else 1

/-! ### Concrete inputs used by counterexamples and witnesses -/

def tsJan : Nat := daysFromCivil 2024 1 1 * minutesPerDay
def tsMar : Nat := daysFromCivil 2024 3 1 * minutesPerDay

/-- Two snapshots of one entity carrying the same `valid_from` (the same
snapshot captured in two overlapping batches). -/
def exTie : List SrcRecord := [⟨1, some tsJan⟩, ⟨1, some tsJan⟩]

/-- The specification's teacher T1 example: snapshots dated 2024-01-01
and 2024-03-01, arriving in chronological order. -/
def exOrdered : List SrcRecord := [⟨1, some tsJan⟩, ⟨1, some tsMar⟩]

/-- The same two snapshots arriving latest-first. -/
def exDisorder : List SrcRecord := [⟨1, some tsMar⟩, ⟨1, some tsJan⟩]

def dimDefault : DimRow := ⟨0, 0, none, false⟩

/-- A merged record whose `valid_from` could not be determined. -/
def exNoVf : List SrcRecord := [⟨1, none⟩]

def c5Student : StudentSrc := ⟨1, 1, some 0⟩

/-- A run in which `Dim_Student`'s load escapes with an exception. -/
def c5Outcomes : List (String × Except Unit Bool) :=
  [("Dim_Subject", .ok true), ("Fact_Homeworks", .ok true), ("Fact_Lessons", .ok true),
   ("Fact_Sales", .ok true), ("Dim_Student", .error ()), ("Dim_Teacher", .ok true)]

def exStudentM : StudentSrc := ⟨3, 20, some 1000⟩
def exUserM : UserSrc := ⟨20, some 2000⟩
def exStudentNoU : StudentSrc := ⟨4, 21, some 1500⟩

/-- A homework with `created_at`/`deadline` present and `submitted_at`
absent. -/
def exHomework : HomeworkSrc :=
  ⟨some 10, some 5, .val ⟨⟨2024, 1, 2⟩, 540⟩, .val ⟨⟨2024, 1, 9⟩, 0⟩, .missing,
   none, none, .missing⟩

/-- A lesson whose `teacher_subject_id` (77) matches nothing, which
itself carries a `teacher_id` column (value 7), scheduled 10:00–11:30. -/
def exLessonTid : LessonSrc :=
  ⟨some 5, some 3, some 77, some (some 7), .val ⟨⟨2024, 5, 1⟩, 600⟩,
   .val ⟨⟨2024, 5, 1⟩, 690⟩, none, .missing⟩

/-- A lesson whose `teacher_subject_id` (77) matches nothing and which has
no `teacher_id` column, scheduled 10:00–11:00. -/
def exLessonNoTid : LessonSrc :=
  ⟨some 5, some 3, some 77, none, .val ⟨⟨2024, 5, 1⟩, 600⟩,
   .val ⟨⟨2024, 5, 1⟩, 660⟩, none, .missing⟩

/-- A homework referencing a lesson id (5) present in no batch. -/
def exHomeworkNoLesson : HomeworkSrc :=
  ⟨some 11, some 5, .val ⟨⟨2024, 2, 1⟩, 0⟩, .missing, .missing, none, none, .missing⟩

/-- Two subject files; `2024-02` sorts last. -/
def exSubjects : List (String × List SubjectSrc) :=
  [("full/subjects/2024-01.parquet", [⟨some 1, some "Old"⟩]),
   ("full/subjects/2024-02.parquet", [⟨some 2, some "Math"⟩])]

/-- Decidable form of "this timestamp's day does not pass the sentinel
date", used as a hypothesis about realistic inputs. -/
def vfDayOk : Option Nat → Bool
  | none => true
  | some t => decide (tsDay t ≤ sentinelDay)

/-! ## Helper lemmas -/

theorem idxFrom_le {α : Type} (n : Nat) (l : List α) : ∀ p ∈ idxFrom n l, n ≤ p.1 := by
  induction l generalizing n with
  | nil => intro p hp; cases hp
  | cons a t ih =>
    intro p hp
    simp only [idxFrom, List.mem_cons] at hp
    rcases hp with rfl | hp
    · exact Nat.le_refl n
    · exact Nat.le_trans (Nat.le_succ n) (ih (n + 1) p hp)

theorem idxFrom_pairwise {α : Type} (n : Nat) (l : List α) :
    (idxFrom n l).Pairwise (fun a b => a.1 < b.1) := by
  induction l generalizing n with
  | nil => exact List.Pairwise.nil
  | cons a t ih =>
    refine List.Pairwise.cons ?_ (ih (n + 1))
    intro p hp
    exact Nat.lt_of_lt_of_le (Nat.lt_succ_self n) (idxFrom_le (n + 1) t p hp)

theorem idxFrom_filter_map_snd {α : Type} (q : α → Bool) (n : Nat) (l : List α) :
    ((idxFrom n l).filter (fun p => q p.2)).map Prod.snd = l.filter q := by
  induction l generalizing n with
  | nil => rfl
  | cons a t ih =>
    simp only [idxFrom, List.filter_cons]
    by_cases h : q a = true
    · simp only [h, if_true, List.map_cons]
      rw [ih]
    · simp only [h, if_false]
      exact ih (n + 1)

theorem sameKeyIndexed_map_snd (rs : List SrcRecord) (k : Int) :
    (sameKeyIndexed rs k).map Prod.snd = rs.filter (fun r => r.key == k) := by
  unfold sameKeyIndexed
  exact idxFrom_filter_map_snd (fun r => r.key == k) 0 rs

theorem sameKeyIndexed_pairwise_fst (rs : List SrcRecord) (k : Int) :
    (sameKeyIndexed rs k).Pairwise (fun a b => a.1 < b.1) :=
  (idxFrom_pairwise 0 rs).filter _

theorem find?_eq_of_first {α : Type} :
    ∀ (l : List α) (p : α → Bool) (n : Nat) (hn : n < l.length),
      (∀ m (hm : m < n), p l[m] = false) →
      p l[n] = true → l.find? p = some l[n]
  | [], _, n, hn, _, _ => absurd hn (Nat.not_lt_zero n)
  | a :: t, p, 0, _, _, hp => by
    have hp' : p a = true := hp
    rw [List.find?_cons_of_pos t hp']
    rfl
  | a :: t, p, n + 1, hn, hpre, hp => by
    have h0 : p a = false := hpre 0 (Nat.succ_pos n)
    rw [List.find?_cons_of_neg t (by simp [h0])]
    exact find?_eq_of_first t p n (Nat.lt_of_succ_lt_succ hn)
      (fun m hm => hpre (m + 1) (Nat.succ_lt_succ hm)) hp

theorem filter_fst_lt_eq_drop {α : Type} :
    ∀ (l : List (Nat × α)), l.Pairwise (fun a b => a.1 < b.1) →
      ∀ (n : Nat) (hn : n < l.length),
        l.filter (fun p => decide (l[n].1 < p.1)) = l.drop (n + 1)
  | [], _, n, hn => absurd hn (Nat.not_lt_zero n)
  | a :: t, hl, 0, hzero => by
    show (a :: t).filter (fun p => decide (a.1 < p.1)) = (a :: t).drop 1
    have hneg : ¬((fun p : Nat × α => decide (a.1 < p.1)) a = true) := by
      simp only [decide_eq_true_eq]
      exact Nat.lt_irrefl a.1
    rw [List.filter_cons, if_neg hneg]
    exact List.filter_eq_self.2 (fun b hb =>
      decide_eq_true (List.rel_of_pairwise_cons hl hb))
  | a :: t, hl, n + 1, hn => by
    have hn' : n < t.length := Nat.lt_of_succ_lt_succ hn
    show (a :: t).filter (fun p => decide (t[n].1 < p.1)) = (a :: t).drop (n + 2)
    have hmem : t[n] ∈ t := List.getElem_mem hn'
    have hax : a.1 < t[n].1 := List.rel_of_pairwise_cons hl hmem
    have hneg : ¬((fun p : Nat × α => decide (t[n].1 < p.1)) a = true) := by
      simp only [decide_eq_true_eq]
      exact Nat.lt_asymm hax
    rw [List.filter_cons, if_neg hneg, List.drop_succ_cons]
    exact filter_fst_lt_eq_drop t (List.Pairwise.of_cons hl) n hn'

theorem vfLe_of_vfLt {a b : Option Nat} (h : vfLt a b = true) : vfLe a b = true := by
  cases a with
  | none => simp [vfLt] at h
  | some x =>
    cases b with
    | none => simp [vfLt] at h
    | some y =>
      simp only [vfLt, decide_eq_true_eq] at h
      simp only [vfLe, decide_eq_true_eq]
      exact Nat.le_of_lt h

theorem foldl_maxOpt_getLast :
    ∀ (vs : List (Option Nat)), (∀ v ∈ vs, v.isSome = true) →
      vs.Pairwise (fun a b => vfLt a b = true) →
      vs.foldl maxOpt none = vs.getLast?.join := by
  intro vs
  induction vs using List.reverseRecOn with
  | nil => intro _ _; rfl
  | append_singleton l a ihl =>
    intro hsome hpair
    rw [List.foldl_append, List.getLast?_concat]
    have hpl := (List.pairwise_append.1 hpair).1
    have hrel := (List.pairwise_append.1 hpair).2.2
    have hsl : ∀ v ∈ l, v.isSome = true := fun v hv => hsome v (List.mem_append_left _ hv)
    rw [ihl hsl hpl]
    cases hl : l.getLast? with
    | none => rfl
    | some b =>
      have hbl : b ∈ l := by
        rw [List.getLast?_eq_getElem?] at hl
        obtain ⟨hblt, heq⟩ := List.getElem?_eq_some_iff.1 hl
        exact heq ▸ List.getElem_mem hblt
      obtain ⟨x, hx⟩ := Option.isSome_iff_exists.1 (hsl b hbl)
      obtain ⟨y, hy⟩ := Option.isSome_iff_exists.1
        (hsome a (List.mem_append_right l (List.mem_singleton.2 rfl)))
      have hlt : vfLt b a = true := hrel b hbl a (List.mem_singleton.2 rfl)
      subst hx; subst hy
      simp only [vfLt, decide_eq_true_eq] at hlt
      show maxOpt (some x) (some y) = some y
      simp only [maxOpt]
      rw [Nat.max_eq_right (Nat.le_of_lt hlt)]

theorem groupMax_eq (rs : List SrcRecord) (k : Int)
    (hsome : ∀ r ∈ rs.filter (fun r => r.key == k), r.validFrom.isSome = true)
    (hpair : (rs.filter (fun r => r.key == k)).Pairwise
      (fun a b => vfLt a.validFrom b.validFrom = true)) :
    groupMax rs k =
      ((rs.filter (fun r => r.key == k)).getLast?.map (fun r => r.validFrom)).join := by
  have hs : ∀ v ∈ (rs.filter (fun r => r.key == k)).map (fun r => r.validFrom),
      v.isSome = true := by
    intro v hv
    obtain ⟨r, hr, rfl⟩ := List.mem_map.1 hv
    exact hsome r hr
  have hp : ((rs.filter (fun r => r.key == k)).map (fun r => r.validFrom)).Pairwise
      (fun a b => vfLt a b = true) := List.pairwise_map.2 hpair
  unfold groupMax
  rw [foldl_maxOpt_getLast _ hs hp, List.getLast?_map]

theorem sameKeyIndexed_length (rs : List SrcRecord) (k : Int) :
    (sameKeyIndexed rs k).length = (rs.filter (fun r => r.key == k)).length := by
  rw [← sameKeyIndexed_map_snd rs k, List.length_map]

theorem fl_getElem_eq_snd (rs : List SrcRecord) (k : Int) (n : Nat)
    (hn : n < (sameKeyIndexed rs k).length)
    (hn' : n < (rs.filter (fun r => r.key == k)).length) :
    (rs.filter (fun r => r.key == k))[n] = (sameKeyIndexed rs k)[n].2 := by
  have h1 : (rs.filter (fun r => r.key == k))[n]? =
      ((sameKeyIndexed rs k)[n]?).map Prod.snd := by
    rw [← sameKeyIndexed_map_snd rs k, List.getElem?_map]
  rw [List.getElem?_eq_getElem hn', List.getElem?_eq_getElem hn] at h1
  simpa using h1

theorem sameKeyIndexed_pairwise_vf (rs : List SrcRecord) (k : Int)
    (hpair : (rs.filter (fun r => r.key == k)).Pairwise
      (fun a b => vfLt a.validFrom b.validFrom = true)) :
    (sameKeyIndexed rs k).Pairwise
      (fun a b => vfLt a.2.validFrom b.2.validFrom = true) := by
  have h : List.Pairwise (fun a b => vfLt a.validFrom b.validFrom = true)
      ((sameKeyIndexed rs k).map Prod.snd) := by
    rw [sameKeyIndexed_map_snd]
    exact hpair
  exact List.pairwise_map.1 h

theorem sortedSame_eq (rs : List SrcRecord) (k : Int)
    (hpair : (rs.filter (fun r => r.key == k)).Pairwise
      (fun a b => vfLt a.validFrom b.validFrom = true)) :
    List.insertionSort vfRel (sameKeyIndexed rs k) = sameKeyIndexed rs k :=
  List.Sorted.insertionSort_eq
    ((sameKeyIndexed_pairwise_vf rs k hpair).imp (fun h => vfLe_of_vfLt h))

theorem validToNC_succ (rs : List SrcRecord) (k : Int)
    (hsome : ∀ r ∈ rs.filter (fun r => r.key == k), r.validFrom.isSome = true)
    (hpair : (rs.filter (fun r => r.key == k)).Pairwise
      (fun a b => vfLt a.validFrom b.validFrom = true))
    (n : Nat) (hn : n + 1 < (rs.filter (fun r => r.key == k)).length) (t' : Nat)
    (ht : (rs.filter (fun r => r.key == k))[n + 1].validFrom = some t') :
    validToNC rs ((rs.filter (fun r => r.key == k))[n]) = some (tsDay t' - 1) := by
  have hlen := sameKeyIndexed_length rs k
  have hnf : n < (rs.filter (fun r => r.key == k)).length := by omega
  have hnsi : n < (sameKeyIndexed rs k).length := by omega
  have hnsi1 : n + 1 < (sameKeyIndexed rs k).length := by omega
  have hget : (rs.filter (fun r => r.key == k))[n] = (sameKeyIndexed rs k)[n].2 :=
    fl_getElem_eq_snd rs k n hnsi hnf
  have hget1 : (rs.filter (fun r => r.key == k))[n + 1] = (sameKeyIndexed rs k)[n + 1].2 :=
    fl_getElem_eq_snd rs k (n + 1) hnsi1 hn
  have hrmem : (rs.filter (fun r => r.key == k))[n] ∈ rs.filter (fun r => r.key == k) :=
    List.getElem_mem hnf
  have hkey : (rs.filter (fun r => r.key == k))[n].key = k := by
    have h2 := (List.mem_filter.1 hrmem).2
    simpa using h2
  obtain ⟨tn, htn⟩ := Option.isSome_iff_exists.1 (hsome _ hrmem)
  have hfind : (sameKeyIndexed rs k).find?
      (fun p => optTsEq p.2.validFrom (rs.filter (fun r => r.key == k))[n].validFrom) =
      some (sameKeyIndexed rs k)[n] := by
    apply find?_eq_of_first (sameKeyIndexed rs k) _ n hnsi
    · intro m hm
      have hmf : m < (rs.filter (fun r => r.key == k)).length := by omega
      have hmsi : m < (sameKeyIndexed rs k).length := by omega
      have htm0 : (rs.filter (fun r => r.key == k))[m] = (sameKeyIndexed rs k)[m].2 :=
        fl_getElem_eq_snd rs k m hmsi hmf
      obtain ⟨tm, htm⟩ := Option.isSome_iff_exists.1 (hsome _ (List.getElem_mem hmf))
      have hlt := List.pairwise_iff_getElem.1 hpair m n hmf hnf hm
      rw [htm, htn] at hlt
      simp only [vfLt, decide_eq_true_eq] at hlt
      show optTsEq (sameKeyIndexed rs k)[m].2.validFrom
          (rs.filter (fun r => r.key == k))[n].validFrom = false
      rw [htm0] at htm
      rw [htm, htn]
      simp only [optTsEq]
      exact beq_eq_false_iff_ne.2 (Nat.ne_of_lt hlt)
    · show optTsEq (sameKeyIndexed rs k)[n].2.validFrom
          (rs.filter (fun r => r.key == k))[n].validFrom = true
      have htns : (sameKeyIndexed rs k)[n].2.validFrom = some tn := by
        rw [← hget]
        exact htn
      rw [htns, htn]
      simp only [optTsEq]
      exact beq_self_eq_true tn
  have hsorted := sortedSame_eq rs k hpair
  have hfilter : (sameKeyIndexed rs k).filter
      (fun p => decide ((sameKeyIndexed rs k)[n].1 < p.1)) =
      (sameKeyIndexed rs k).drop (n + 1) :=
    filter_fst_lt_eq_drop (sameKeyIndexed rs k) (sameKeyIndexed_pairwise_fst rs k) n hnsi
  have hdrop : (sameKeyIndexed rs k).drop (n + 1) =
      (sameKeyIndexed rs k)[n + 1] :: (sameKeyIndexed rs k).drop (n + 2) :=
    List.drop_eq_getElem_cons hnsi1
  have hvf1 : (sameKeyIndexed rs k)[n + 1].2.validFrom = some t' := by
    rw [← hget1]
    exact ht
  unfold validToNC
  rw [hkey, hsorted]
  simp only [hfind, hfilter, hdrop, hvf1]

theorem filter_key_getElem_key (rs : List SrcRecord) (k : Int) (n : Nat)
    (hn : n < (rs.filter (fun r => r.key == k)).length) :
    (rs.filter (fun r => r.key == k))[n].key = k := by
  have h2 := (List.mem_filter.1 (List.getElem_mem hn)).2
  simpa using h2

theorem getLast?_filter_key (rs : List SrcRecord) (k : Int)
    (hpos : 0 < (rs.filter (fun r => r.key == k)).length) :
    (rs.filter (fun r => r.key == k)).getLast? =
      some ((rs.filter (fun r => r.key == k))[(rs.filter (fun r => r.key == k)).length - 1]) := by
  rw [List.getLast?_eq_getElem?]
  exact List.getElem?_eq_getElem (by omega)

theorem isCur_of_succ (rs : List SrcRecord) (k : Int)
    (hsome : ∀ r ∈ rs.filter (fun r => r.key == k), r.validFrom.isSome = true)
    (hpair : (rs.filter (fun r => r.key == k)).Pairwise
      (fun a b => vfLt a.validFrom b.validFrom = true))
    (n : Nat) (hn : n + 1 < (rs.filter (fun r => r.key == k)).length) :
    isCur rs ((rs.filter (fun r => r.key == k))[n]) = false := by
  have hnf : n < (rs.filter (fun r => r.key == k)).length := by omega
  have hpos : 0 < (rs.filter (fun r => r.key == k)).length := by omega
  obtain ⟨tn, htn⟩ := Option.isSome_iff_exists.1 (hsome _ (List.getElem_mem hnf))
  obtain ⟨tM, htM⟩ := Option.isSome_iff_exists.1
    (hsome _ (List.getElem_mem (n := (rs.filter (fun r => r.key == k)).length - 1) (by omega)))
  have hlt := List.pairwise_iff_getElem.1 hpair n
    ((rs.filter (fun r => r.key == k)).length - 1) hnf (by omega) (by omega)
  rw [htn, htM] at hlt
  simp only [vfLt, decide_eq_true_eq] at hlt
  unfold isCur
  rw [filter_key_getElem_key rs k n hnf, groupMax_eq rs k hsome hpair,
    getLast?_filter_key rs k hpos]
  show optTsEq (rs.filter (fun r => r.key == k))[n].validFrom
      ((rs.filter (fun r => r.key == k))[(rs.filter (fun r => r.key == k)).length - 1]).validFrom
      = false
  rw [htn, htM]
  simp only [optTsEq]
  exact beq_eq_false_iff_ne.2 (Nat.ne_of_lt hlt)

theorem isCur_last (rs : List SrcRecord) (k : Int)
    (hsome : ∀ r ∈ rs.filter (fun r => r.key == k), r.validFrom.isSome = true)
    (hpair : (rs.filter (fun r => r.key == k)).Pairwise
      (fun a b => vfLt a.validFrom b.validFrom = true))
    (hpos : 0 < (rs.filter (fun r => r.key == k)).length) :
    isCur rs ((rs.filter (fun r => r.key == k))[(rs.filter (fun r => r.key == k)).length - 1])
      = true := by
  obtain ⟨tM, htM⟩ := Option.isSome_iff_exists.1
    (hsome _ (List.getElem_mem (n := (rs.filter (fun r => r.key == k)).length - 1) (by omega)))
  unfold isCur
  rw [filter_key_getElem_key rs k _ (by omega), groupMax_eq rs k hsome hpair,
    getLast?_filter_key rs k hpos]
  show optTsEq ((rs.filter (fun r => r.key == k))[(rs.filter (fun r => r.key == k)).length - 1]).validFrom
      ((rs.filter (fun r => r.key == k))[(rs.filter (fun r => r.key == k)).length - 1]).validFrom
      = true
  rw [htM]
  simp only [optTsEq]
  exact beq_self_eq_true tM

theorem countP_isCur (rs : List SrcRecord) (k : Int)
    (hsome : ∀ r ∈ rs.filter (fun r => r.key == k), r.validFrom.isSome = true)
    (hpair : (rs.filter (fun r => r.key == k)).Pairwise
      (fun a b => vfLt a.validFrom b.validFrom = true))
    (hpos : 0 < (rs.filter (fun r => r.key == k)).length) :
    (rs.filter (fun r => r.key == k)).countP (fun r => isCur rs r) = 1 := by
  obtain hnil | ⟨L, z, hLz⟩ := List.eq_nil_or_concat (rs.filter (fun r => r.key == k))
  · rw [hnil] at hpos
    simp at hpos
  · rw [List.concat_eq_append] at hLz
    have hzmem : z ∈ rs.filter (fun r => r.key == k) := by
      rw [hLz]
      exact List.mem_append_right L (List.mem_singleton.2 rfl)
    obtain ⟨tM, htM⟩ := Option.isSome_iff_exists.1 (hsome z hzmem)
    have hglast : (rs.filter (fun r => r.key == k)).getLast? = some z := by
      rw [hLz]
      exact List.getLast?_concat L
    have hgm : groupMax rs k = some tM := by
      rw [groupMax_eq rs k hsome hpair, hglast]
      show z.validFrom = some tM
      exact htM
    have hLfalse : ∀ r ∈ L, isCur rs r = false := by
      intro r hr
      have hrfl : r ∈ rs.filter (fun r => r.key == k) := by
        rw [hLz]
        exact List.mem_append_left _ hr
      have hk : r.key = k := by
        have h2 := (List.mem_filter.1 hrfl).2
        simpa using h2
      obtain ⟨tr, htr⟩ := Option.isSome_iff_exists.1 (hsome r hrfl)
      have hrel : vfLt r.validFrom z.validFrom = true := by
        have hp := hpair
        rw [hLz] at hp
        exact (List.pairwise_append.1 hp).2.2 r hr z (List.mem_singleton.2 rfl)
      rw [htr, htM] at hrel
      simp only [vfLt, decide_eq_true_eq] at hrel
      unfold isCur
      rw [hk, hgm, htr]
      simp only [optTsEq]
      exact beq_eq_false_iff_ne.2 (Nat.ne_of_lt hrel)
    have hzk : z.key = k := by
      have h2 := (List.mem_filter.1 hzmem).2
      simpa using h2
    have hzc : isCur rs z = true := by
      unfold isCur
      rw [hzk, hgm, htM]
      simp only [optTsEq]
      exact beq_self_eq_true tM
    rw [hLz, List.countP_append]
    rw [List.countP_eq_zero.2 (fun r hr => by simp [hLfalse r hr])]
    simp [List.countP_cons, hzc]

/-- Claim C1 (counterexample): two same-key snapshots tying on
`valid_from` — the same snapshot captured in two overlapping batches —
are both marked current (each with the sentinel `valid_to`), so "exactly
one row has `is_current = true`" fails on the code as written. -/
theorem scd2_tied_max_two_current :
    (dimLoad exTie 0).countP (fun row => row.key == 1 && row.is_current) = 2 ∧
    ¬((dimLoad exTie 0).countP (fun row => row.key == 1 && row.is_current) = 1) := by
  constructor
  · decide
  · decide

/-- Claim C1 (amended): for a natural key whose records all carry a
determinable `valid_from`, arrive in strictly increasing `valid_from`
order, and are dated no later than the sentinel, exactly one emitted
`DimensionVersion` row for that key has `is_current = true`, and a row of
that key carries the sentinel `valid_to` 2099-12-31 exactly when it is
the current one. -/
theorem scd2_unique_current (rs : List SrcRecord) (today : Nat) (k : Int)
    (hpos : 0 < (rs.filter (fun r => r.key == k)).length)
    (hsome : ∀ r ∈ rs.filter (fun r => r.key == k), r.validFrom.isSome = true)
    (hpair : (rs.filter (fun r => r.key == k)).Pairwise
      (fun a b => vfLt a.validFrom b.validFrom = true))
    (hday : ∀ r ∈ rs, vfDayOk r.validFrom = true) :
    (dimLoad rs today).countP (fun row => row.key == k && row.is_current) = 1 ∧
    ∀ row ∈ dimLoad rs today, row.key = k →
      (row.is_current = true ↔ row.valid_to = some sentinelDay) := by
  constructor
  · show (rs.map (emitRow rs today)).countP (fun row => row.key == k && row.is_current) = 1
    rw [List.countP_map]
    have hfn : ((fun row : DimRow => row.key == k && row.is_current) ∘ emitRow rs today)
        = (fun r => isCur rs r && (r.key == k)) := by
      funext r
      show (r.key == k && isCur rs r) = (isCur rs r && (r.key == k))
      exact Bool.and_comm _ _
    rw [hfn, ← List.countP_filter]
    exact countP_isCur rs k hsome hpair hpos
  · intro row hrow hkk
    obtain ⟨r, hr, rfl⟩ := List.mem_map.1 hrow
    have hk : r.key = k := hkk
    have hrfl : r ∈ rs.filter (fun r => r.key == k) :=
      List.mem_filter.2 ⟨hr, by simp [hk]⟩
    obtain ⟨n, hnlt, hgeteq⟩ := List.mem_iff_getElem.1 hrfl
    by_cases hc : isCur rs r = true
    · constructor
      · intro _
        show (if isCur rs r then some sentinelDay else validToNC rs r) = some sentinelDay
        rw [if_pos hc]
      · intro _
        exact hc
    · have hcf : isCur rs r = false := by
        cases hcc : isCur rs r
        · rfl
        · exact absurd hcc hc
      have hnlast : n + 1 < (rs.filter (fun r => r.key == k)).length := by
        by_contra hcon
        have hn1 : n = (rs.filter (fun r => r.key == k)).length - 1 := by omega
        have hlast := isCur_last rs k hsome hpair (by omega)
        have he : (rs.filter (fun r => r.key == k))[n]? =
            (rs.filter (fun r => r.key == k))[(rs.filter (fun r => r.key == k)).length - 1]? := by
          rw [← hn1]
        rw [List.getElem?_eq_getElem hnlt,
          List.getElem?_eq_getElem (by omega :
            (rs.filter (fun r => r.key == k)).length - 1 <
              (rs.filter (fun r => r.key == k)).length)] at he
        have he2 := Option.some.inj he
        rw [← he2] at hlast
        rw [hgeteq] at hlast
        rw [hcf] at hlast
        simp at hlast
      obtain ⟨t', ht'⟩ := Option.isSome_iff_exists.1 (hsome _ (List.getElem_mem hnlast))
      have hvt := validToNC_succ rs k hsome hpair n hnlast t' ht'
      rw [hgeteq] at hvt
      have hmem1 : (rs.filter (fun r => r.key == k))[n + 1] ∈ rs :=
        List.mem_of_mem_filter (List.getElem_mem hnlast)
      have hdayok := hday _ hmem1
      rw [ht'] at hdayok
      simp only [vfDayOk, decide_eq_true_eq] at hdayok
      have hsent : 0 < sentinelDay := by decide
      have hne2 : tsDay t' - 1 ≠ sentinelDay := by omega
      constructor
      · intro hcc
        have hcc2 : isCur rs r = true := hcc
        rw [hcf] at hcc2
        simp at hcc2
      · intro hvteq
        exfalso
        have hthis : (if isCur rs r then some sentinelDay else validToNC rs r) =
            some sentinelDay := hvteq
        rw [if_neg (by simp [hcf])] at hthis
        rw [hvt] at hthis
        exact hne2 (Option.some.inj hthis)

/-- Claim C1 (witness): the specification's two-snapshot history, in
chronological order, has exactly one current row for key 1. -/
theorem scd2_unique_current_witness :
    (dimLoad exOrdered 0).countP (fun row => row.key == 1 && row.is_current) = 1 :=
  (scd2_unique_current exOrdered 0 1 (by decide) (by decide) (by decide) (by decide)).1

/-- Claim C2 (counterexample): the same two snapshots stored latest-first
give the January version the sentinel `valid_to` rather than 2024-02-29
(the next version's `valid_from` minus one day), because the source
resolves "next" through the dataframe index label, not through the
`valid_from` order. -/
theorem scd2_out_of_order_breaks_chain :
    ((dimLoad exDisorder 0).getD 1 dimDefault).is_current = false ∧
    ((dimLoad exDisorder 0).getD 1 dimDefault).valid_to = some sentinelDay ∧
    ¬(((dimLoad exDisorder 0).getD 1 dimDefault).valid_to =
      some (daysFromCivil 2024 2 29)) := by
  refine ⟨by decide, by decide, by decide⟩

/-- Claim C2 (amended): when a key's records arrive in strictly
increasing `valid_from` order, the version emitted for the `n`-th record
is non-current and its `valid_to` equals the `(n+1)`-st record's
`valid_from` date minus one day; the row is among the emitted rows.
(The final version's sentinel behavior is claim C1's theorem.) -/
theorem scd2_valid_to_chain (rs : List SrcRecord) (today : Nat) (k : Int)
    (hsome : ∀ r ∈ rs.filter (fun r => r.key == k), r.validFrom.isSome = true)
    (hpair : (rs.filter (fun r => r.key == k)).Pairwise
      (fun a b => vfLt a.validFrom b.validFrom = true))
    (n : Nat) (r r' : SrcRecord)
    (hr : (rs.filter (fun r => r.key == k))[n]? = some r)
    (hr' : (rs.filter (fun r => r.key == k))[n + 1]? = some r')
    (t' : Nat) (ht : r'.validFrom = some t') :
    (emitRow rs today r).is_current = false ∧
    (emitRow rs today r).valid_to = some (tsDay t' - 1) ∧
    emitRow rs today r ∈ dimLoad rs today := by
  obtain ⟨hn1, hfleq1⟩ := List.getElem?_eq_some_iff.1 hr
  obtain ⟨hn2, hfleq2⟩ := List.getElem?_eq_some_iff.1 hr'
  have hcf := isCur_of_succ rs k hsome hpair n hn2
  rw [hfleq1] at hcf
  have hvt := validToNC_succ rs k hsome hpair n hn2 t' (by rw [hfleq2]; exact ht)
  rw [hfleq1] at hvt
  refine ⟨hcf, ?_, ?_⟩
  · show (if isCur rs r then some sentinelDay else validToNC rs r) = some (tsDay t' - 1)
    rw [if_neg (by simp [hcf])]
    exact hvt
  · refine List.mem_map_of_mem (emitRow rs today) ?_
    rw [← hfleq1]
    exact List.mem_of_mem_filter (List.getElem_mem hn1)

/-- Claim C2 (witness): the specification's teacher T1 example — versions
(2024-01-01, 2024-02-29, non-current) and (2024-03-01, sentinel,
current). -/
theorem scd2_valid_to_chain_witness :
    ((emitRow exOrdered 0 ⟨1, some tsJan⟩).is_current = false ∧
     (emitRow exOrdered 0 ⟨1, some tsJan⟩).valid_to = some (tsDay tsMar - 1) ∧
     emitRow exOrdered 0 ⟨1, some tsJan⟩ ∈ dimLoad exOrdered 0) ∧
    tsDay tsMar - 1 = daysFromCivil 2024 2 29 ∧
    (emitRow exOrdered 0 ⟨1, some tsJan⟩).valid_from = daysFromCivil 2024 1 1 ∧
    (emitRow exOrdered 0 ⟨1, some tsMar⟩).is_current = true ∧
    (emitRow exOrdered 0 ⟨1, some tsMar⟩).valid_to = some sentinelDay := by
  refine ⟨scd2_valid_to_chain exOrdered 0 1 (by decide) (by decide) 0
    ⟨1, some tsJan⟩ ⟨1, some tsMar⟩ (by decide) (by decide) tsMar (by decide),
    by decide, by decide, by decide, by decide⟩

theorem mem_merge_matched :
    ∀ (students : List StudentSrc) (users : List UserSrc) (s : StudentSrc) (u : UserSrc),
      s ∈ students → u ∈ users → u.user_id = s.user_id →
      SrcRecord.mk s.student_id (maxOpt s.updated_at u.updated_at) ∈
        mergeWithUsers students users
  | [], _, s, _, hs, _, _ => absurd hs (List.not_mem_nil s)
  | a :: rest, users, s, u, hs, hu, huid => by
    rcases List.mem_cons.1 hs with rfl | hs2
    · simp only [mergeWithUsers]
      have humem : u ∈ users.filter (fun v => v.user_id == s.user_id) :=
        List.mem_filter.2 ⟨hu, by simp [huid]⟩
      cases hfe : users.filter (fun v => v.user_id == s.user_id) with
      | nil =>
        rw [hfe] at humem
        cases humem
      | cons m ms =>
        rw [hfe] at humem
        simp only [hfe]
        exact List.mem_append_left _ (List.mem_map_of_mem _ humem)
    · simp only [mergeWithUsers]
      exact List.mem_append_right _ (mem_merge_matched rest users s u hs2 hu huid)

theorem mem_merge_unmatched :
    ∀ (students : List StudentSrc) (users : List UserSrc) (s : StudentSrc),
      s ∈ students → (∀ u ∈ users, u.user_id ≠ s.user_id) →
      SrcRecord.mk s.student_id s.updated_at ∈ mergeWithUsers students users
  | [], _, s, hs, _ => absurd hs (List.not_mem_nil s)
  | a :: rest, users, s, hs, hnone => by
    rcases List.mem_cons.1 hs with rfl | hs2
    · simp only [mergeWithUsers]
      have hfe : users.filter (fun v => v.user_id == s.user_id) = [] :=
        List.filter_eq_nil_iff.2 (fun u hu => by simp [hnone u hu])
      simp only [hfe]
      exact List.mem_append_left _ (List.mem_singleton.2 rfl)
    · simp only [mergeWithUsers]
      exact List.mem_append_right _ (mem_merge_unmatched rest users s hs2 hnone)

/-- Claim C3: the student–user (and teacher–user) merge is a left join on
`user_id`: every matched entity/user pair contributes a merged record
whose derived `valid_from` is the `NaT`-skipping maximum of the entity's
and the user's `updated_at`, and an entity record matching no user is
retained, its `valid_from` being its own `updated_at` (the row-wise `max`
over a `NaT` user column). -/
theorem merge_valid_from_is_max (students : List StudentSrc) (users : List UserSrc) :
    (∀ s ∈ students, ∀ u ∈ users, u.user_id = s.user_id →
      SrcRecord.mk s.student_id (maxOpt s.updated_at u.updated_at) ∈
        mergeWithUsers students users) ∧
    (∀ s ∈ students, (∀ u ∈ users, u.user_id ≠ s.user_id) →
      SrcRecord.mk s.student_id s.updated_at ∈ mergeWithUsers students users) :=
  ⟨fun s hs u hu h => mem_merge_matched students users s u hs hu h,
   fun s hs h => mem_merge_unmatched students users s hs h⟩

/-- Claim C3 (witness): student 3 joined to user 20 takes the user's
later `updated_at`; student 4 matches no user and is retained. -/
theorem merge_valid_from_is_max_witness :
    SrcRecord.mk 3 (some 2000) ∈ mergeWithUsers [exStudentM] [exUserM] ∧
    SrcRecord.mk 4 (some 1500) ∈ mergeWithUsers [exStudentNoU] [exUserM] := by
  have h1 := (merge_valid_from_is_max [exStudentM] [exUserM]).1 exStudentM
    (List.mem_singleton.2 rfl) exUserM (List.mem_singleton.2 rfl) rfl
  have h2 := (merge_valid_from_is_max [exStudentNoU] [exUserM]).2 exStudentNoU
    (List.mem_singleton.2 rfl) (by decide)
  exact ⟨h1, h2⟩

/-- Claim C4 (counterexample): a lesson that itself carries a
`teacher_id` column (here 7) and whose `teacher_subject_id` matches no
teacher-subject record gets `teacher_sk = 7`, not the unresolved marker
`0`; and with timestamps 90 minutes apart the emitted `duration_minutes`
is 90, not 60. -/
theorem unresolved_chain_counterexample :
    (mkFactLessonRow [] [] exLessonTid).teacher_sk = 7 ∧
    ¬((mkFactLessonRow [] [] exLessonTid).teacher_sk = 0) ∧
    (mkFactLessonRow [] [] exLessonTid).duration_minutes = 90 ∧
    ¬((mkFactLessonRow [] [] exLessonTid).duration_minutes = 60) ∧
    (mkFactLessonRow [] [] exLessonTid).subject_sk = 0 := by
  refine ⟨by decide, by decide, by decide, by decide, by decide⟩

/-- Claim C4 (amended): an unresolvable foreign-key chain yields the
unresolved marker `0` for every surrogate key the failed hops produce —
for a homework with no matching lesson both `student_sk` and
`subject_sk`, for a found lesson with no matching teacher-subject the
`subject_sk`, and for a lesson without a `teacher_id` column both
`teacher_sk` and `subject_sk` — never raises (the materializer is a total
function), and the row is still emitted, with `duration_minutes` equal to
the scheduled end minus start in minutes when both timestamps parse
(60 for an hour-long lesson) and 60 when either is absent. -/
theorem unresolved_chain_zero_keys (lessons : List LessonSrc) (tss : List TSRec)
    (teachers : List TeacherSrc) (hw : HomeworkSrc) (lrow : LessonSrc) :
    (lessons.find? (fun l => l.lesson_id == some (safe_int hw.lesson_id)) = none →
      (mkFactHomeworkRow lessons tss hw).student_sk = 0 ∧
      (mkFactHomeworkRow lessons tss hw).subject_sk = 0) ∧
    (∀ l, lessons.find? (fun l => l.lesson_id == some (safe_int hw.lesson_id)) = some l →
      findTS tss (safe_int l.teacher_subject_id) = none →
      (mkFactHomeworkRow lessons tss hw).subject_sk = 0) ∧
    (lrow.teacher_id = none →
      findTS tss (safe_int lrow.teacher_subject_id) = none →
      (mkFactLessonRow tss teachers lrow).teacher_sk = 0 ∧
      (mkFactLessonRow tss teachers lrow).subject_sk = 0) ∧
    (∀ s e, lrow.scheduled_start_time = RawDt.val s →
      lrow.scheduled_end_time = RawDt.val e →
      (mkFactLessonRow tss teachers lrow).duration_minutes =
        (dtMinutes e : Int) - (dtMinutes s : Int)) ∧
    ((lrow.scheduled_start_time = RawDt.missing ∨
        lrow.scheduled_end_time = RawDt.missing) →
      (mkFactLessonRow tss teachers lrow).duration_minutes = 60) ∧
    (∀ batches : List (List LessonSrc), lrow ∈ batches.flatten →
      mkFactLessonRow tss teachers lrow ∈ (load_fact_lessons batches tss teachers).rows) := by
  refine ⟨?_, ?_, ?_, ?_, ?_, ?_⟩
  · intro hfind
    constructor <;> simp [mkFactHomeworkRow, resolveHomeworkKeys, hfind]
  · intro l hfind hts
    simp [mkFactHomeworkRow, resolveHomeworkKeys, hfind, hts]
  · intro hcol hts
    constructor <;> simp [mkFactLessonRow, resolveLessonKeys, hts, hcol]
  · intro s e hs he
    simp [mkFactLessonRow, durationMinutes, hs, he, RawDt.notna]
  · intro hmiss
    rcases hmiss with hm | hm <;> simp [mkFactLessonRow, durationMinutes, hm, RawDt.notna]
  · intro batches hmem
    cases batches with
    | nil => simp at hmem
    | cons b bs =>
      show mkFactLessonRow tss teachers lrow ∈
        (load_fact_lessons (b :: bs) tss teachers).rows
      simp only [load_fact_lessons, List.isEmpty_cons]
      exact List.mem_map_of_mem _ hmem

/-- Claim C4 (witness): a lesson with no `teacher_id` column and an
unmatched `teacher_subject_id` materializes with both keys `0` and the
60-minute duration of its hour-long schedule; the homework with no
matching lesson gets both keys `0`. -/
theorem unresolved_chain_zero_keys_witness :
    (mkFactHomeworkRow [] [] exHomeworkNoLesson).student_sk = 0 ∧
    (mkFactHomeworkRow [] [] exHomeworkNoLesson).subject_sk = 0 ∧
    (mkFactLessonRow [] [] exLessonNoTid).teacher_sk = 0 ∧
    (mkFactLessonRow [] [] exLessonNoTid).subject_sk = 0 ∧
    (mkFactLessonRow [] [] exLessonNoTid).duration_minutes = 60 ∧
    mkFactLessonRow [] [] exLessonNoTid ∈ (load_fact_lessons [[exLessonNoTid]] [] []).rows := by
  have h := unresolved_chain_zero_keys [] [] [] exHomeworkNoLesson exLessonNoTid
  refine ⟨(h.1 rfl).1, (h.1 rfl).2, (h.2.2.1 rfl rfl).1, (h.2.2.1 rfl rfl).2, ?_, ?_⟩
  · have hd := h.2.2.2.1 ⟨⟨2024, 5, 1⟩, 600⟩ ⟨⟨2024, 5, 1⟩, 660⟩ rfl rfl
    rw [hd]
    decide
  · exact h.2.2.2.2.2 [[exLessonNoTid]] (by simp)

/-- Claim C5 (counterexample): a student history with records but no user
records at all makes `load_dim_student` raise (`KeyError` on the absent
`valid_from` column); the exception propagates through `run_all_loads`,
so later tables never load and the run produces no per-table map — `main`
catches it and exits 1. -/
theorem load_exception_aborts_run :
    load_dim_student_pipeline [c5Student] [] 0 = Except.error "KeyError: valid_from" ∧
    run_all_loads c5Outcomes = Except.error () ∧
    mainExit true c5Outcomes = 1 :=
  ⟨rfl, rfl, rfl⟩

/-- Claim C5 (amended): when every table's load returns a boolean (none
raises), the run result maps each of the six tables to its own outcome —
independent of the other tables' outcomes — and the exit status is 0
exactly when all six succeeded, 1 when any failed, and 1 on a
connectivity failure. -/
theorem run_all_loads_per_table_map (b1 b2 b3 b4 b5 b6 : Bool) :
    run_all_loads [("Dim_Subject", .ok b1), ("Fact_Homeworks", .ok b2),
      ("Fact_Lessons", .ok b3), ("Fact_Sales", .ok b4), ("Dim_Student", .ok b5),
      ("Dim_Teacher", .ok b6)] =
      Except.ok [("Dim_Subject", b1), ("Fact_Homeworks", b2), ("Fact_Lessons", b3),
        ("Fact_Sales", b4), ("Dim_Student", b5), ("Dim_Teacher", b6)] ∧
    (mainExit true [("Dim_Subject", .ok b1), ("Fact_Homeworks", .ok b2),
      ("Fact_Lessons", .ok b3), ("Fact_Sales", .ok b4), ("Dim_Student", .ok b5),
      ("Dim_Teacher", .ok b6)] = 0 ↔
      (b1 && (b2 && (b3 && (b4 && (b5 && b6))))) = true) ∧
    ((b1 && (b2 && (b3 && (b4 && (b5 && b6))))) = false →
      mainExit true [("Dim_Subject", .ok b1), ("Fact_Homeworks", .ok b2),
        ("Fact_Lessons", .ok b3), ("Fact_Sales", .ok b4), ("Dim_Student", .ok b5),
        ("Dim_Teacher", .ok b6)] = 1) ∧
    mainExit false [("Dim_Subject", .ok b1), ("Fact_Homeworks", .ok b2),
      ("Fact_Lessons", .ok b3), ("Fact_Sales", .ok b4), ("Dim_Student", .ok b5),
      ("Dim_Teacher", .ok b6)] = 1 := by
  refine ⟨rfl, ?_, ?_, rfl⟩ <;>
    cases b1 <;> cases b2 <;> cases b3 <;> cases b4 <;> cases b5 <;> cases b6 <;> decide

/-- Claim C6: every derived fact date key is the integer `YYYYMMDD`
encoding of its source date and `0` when the source is missing or
unparseable — except that a homework whose `submitted_at` is absent gets
a null (`None`) `date_submitted_key` rather than zero, while a present
`created_at` still yields its `YYYYMMDD` integer. -/
theorem homework_date_keys_spec (lessons : List LessonSrc) (tss : List TSRec)
    (teachers : List TeacherSrc) (hw : HomeworkSrc) (lrow : LessonSrc) :
    ((mkFactHomeworkRow lessons tss hw).date_assigned_key = safe_date_key hw.created_at) ∧
    ((mkFactHomeworkRow lessons tss hw).date_deadline_key = safe_date_key hw.deadline) ∧
    (hw.submitted_at = RawDt.missing →
      (mkFactHomeworkRow lessons tss hw).date_submitted_key = none) ∧
    (∀ v, hw.submitted_at = RawDt.val v →
      (mkFactHomeworkRow lessons tss hw).date_submitted_key = some (yyyymmdd v.date)) ∧
    ((mkFactLessonRow tss teachers lrow).date_key =
      safe_date_key lrow.scheduled_start_time) ∧
    (∀ v, safe_date_key (RawDt.val v) = yyyymmdd v.date) ∧
    safe_date_key RawDt.missing = 0 ∧
    safe_date_key RawDt.unparseable = 0 := by
  refine ⟨rfl, rfl, ?_, ?_, rfl, fun v => rfl, rfl, rfl⟩
  · intro h
    simp [mkFactHomeworkRow, h, RawDt.notna]
  · intro v h
    simp [mkFactHomeworkRow, h, RawDt.notna, safe_date_key]

/-- Claim C6 (witness): the example homework — `created_at` 2024-01-02
present, `submitted_at` absent. -/
theorem homework_date_keys_spec_witness :
    (mkFactHomeworkRow [] [] exHomework).date_assigned_key = 20240102 ∧
    (mkFactHomeworkRow [] [] exHomework).date_submitted_key = none ∧
    (mkFactHomeworkRow [] [] exHomework).date_deadline_key = 20240109 := by
  have h := homework_date_keys_spec [] [] [] exHomework exLessonNoTid
  refine ⟨?_, h.2.2.1 rfl, ?_⟩
  · rw [h.1]
    decide
  · rw [h.2.1]
    decide

/-- Claim C7: re-deriving the date key from the date stored in a
materialized lesson row (`time_start`) reproduces the row's integer
`date_key`; with the start timestamp present both equal the `YYYYMMDD`
encoding of its date, which `safe_datetime_to_date` extracts. -/
theorem date_key_round_trip (tss : List TSRec) (teachers : List TeacherSrc)
    (lrow : LessonSrc) (v : DtVal) (h : lrow.scheduled_start_time = RawDt.val v) :
    safe_date_key_opt ((mkFactLessonRow tss teachers lrow).time_start) =
      (mkFactLessonRow tss teachers lrow).date_key ∧
    (mkFactLessonRow tss teachers lrow).date_key = yyyymmdd v.date ∧
    safe_datetime_to_date lrow.scheduled_start_time = some v.date := by
  refine ⟨?_, ?_, ?_⟩ <;>
    simp [mkFactLessonRow, h, RawDt.notna, safe_date_key, safe_date_key_opt,
      safe_datetime_to_date]

/-- Claim C7 (witness): the hour-long example lesson round-trips its
2024-05-01 date key. -/
theorem date_key_round_trip_witness :
    safe_date_key_opt ((mkFactLessonRow [] [] exLessonNoTid).time_start) =
      (mkFactLessonRow [] [] exLessonNoTid).date_key ∧
    (mkFactLessonRow [] [] exLessonNoTid).date_key = 20240501 := by
  have h := date_key_round_trip [] [] exLessonNoTid ⟨⟨2024, 5, 1⟩, 600⟩ rfl
  refine ⟨h.1, ?_⟩
  rw [h.2.1]
  decide

/-- Claim C8: a merged record whose `valid_from` cannot be determined
(missing or unparseable after normalization) is emitted with the
processing date as its `valid_from` — a degraded fallback, not an error
(the versioner is a total function). -/
theorem valid_from_fallback_today (rs : List SrcRecord) (today : Nat) (r : SrcRecord)
    (hr : r ∈ rs) (h : r.validFrom = none) :
    (emitRow rs today r).valid_from = today ∧
    emitRow rs today r ∈ dimLoad rs today := by
  constructor
  · show (match r.validFrom with | some t => tsDay t | none => today) = today
    rw [h]
  · exact List.mem_map_of_mem _ hr

/-- Claim C8 (witness): a lone record with `NaT` `valid_from`, processed
on day 5. -/
theorem valid_from_fallback_today_witness :
    (emitRow exNoVf 5 ⟨1, none⟩).valid_from = 5 ∧
    emitRow exNoVf 5 ⟨1, none⟩ ∈ dimLoad exNoVf 5 :=
  valid_from_fallback_today exNoVf 5 ⟨1, none⟩ (List.mem_singleton.2 rfl) rfl

/-- Claim C9: when the teacher-subject lookup misses but the lesson row
itself has a `teacher_id` column, the emitted `teacher_sk` is that value
under the safe-integer conversion, while `subject_sk` stays at the
unresolved marker `0`. -/
theorem lesson_teacher_id_fallback (tss : List TSRec) (teachers : List TeacherSrc)
    (lrow : LessonSrc) (w : Option Int) (hcol : lrow.teacher_id = some w)
    (hmiss : findTS tss (safe_int lrow.teacher_subject_id) = none) :
    (mkFactLessonRow tss teachers lrow).teacher_sk = safe_int w ∧
    (mkFactLessonRow tss teachers lrow).subject_sk = 0 := by
  constructor <;> simp [mkFactLessonRow, resolveLessonKeys, hmiss, hcol]

/-- Claim C9 (witness): the example lesson with `teacher_id = 7` and an
unmatched `teacher_subject_id` yields `teacher_sk = 7 ≠ 0`. -/
theorem lesson_teacher_id_fallback_witness :
    (mkFactLessonRow [] [] exLessonTid).teacher_sk = 7 ∧
    (mkFactLessonRow [] [] exLessonTid).subject_sk = 0 ∧
    ¬((mkFactLessonRow [] [] exLessonTid).teacher_sk = 0) := by
  have h := lesson_teacher_id_fallback [] [] exLessonTid (some 7) rfl rfl
  exact ⟨h.1, h.2, by decide⟩

theorem mem_of_getLast? {α : Type} {l : List α} {m : α} (h : l.getLast? = some m) :
    m ∈ l := by
  rw [List.getLast?_eq_getElem?] at h
  obtain ⟨hlt, heq⟩ := List.getElem?_eq_some_iff.1 h
  exact heq ▸ List.getElem_mem hlt

theorem strLeData_refl : ∀ as, strLeData as as = true
  | [] => rfl
  | a :: as => by
    simp only [strLeData]
    rw [if_neg (Nat.lt_irrefl a.toNat), if_neg (Nat.lt_irrefl a.toNat)]
    exact strLeData_refl as

theorem strLeData_total : ∀ as bs, strLeData as bs = true ∨ strLeData bs as = true
  | [], _ => Or.inl rfl
  | _ :: _, [] => Or.inr rfl
  | a :: as, b :: bs => by
    simp only [strLeData]
    rcases Nat.lt_trichotomy a.toNat b.toNat with h | h | h
    · left
      rw [if_pos h]
    · rw [if_neg (by omega), if_neg (by omega), if_neg (by omega), if_neg (by omega)]
      exact strLeData_total as bs
    · right
      rw [if_pos h]

theorem strLeData_trans :
    ∀ as bs cs, strLeData as bs = true → strLeData bs cs = true →
      strLeData as cs = true
  | [], _, _, _, _ => rfl
  | _ :: _, [], _, h1, _ => by simp [strLeData] at h1
  | _ :: _, _ :: _, [], _, h2 => by simp [strLeData] at h2
  | a :: as, b :: bs, c :: cs, h1, h2 => by
    simp only [strLeData] at h1 h2 ⊢
    by_cases hab : a.toNat < b.toNat <;> by_cases hbc : b.toNat < c.toNat
    · rw [if_pos (by omega : a.toNat < c.toNat)]
    · rw [if_neg hbc] at h2
      by_cases hcb : c.toNat < b.toNat
      · rw [if_pos hcb] at h2
        exact absurd h2 (by simp)
      · rw [if_pos (by omega : a.toNat < c.toNat)]
    · rw [if_neg hab] at h1
      by_cases hba : b.toNat < a.toNat
      · rw [if_pos hba] at h1
        exact absurd h1 (by simp)
      · rw [if_pos (by omega : a.toNat < c.toNat)]
    · rw [if_neg hab] at h1
      rw [if_neg hbc] at h2
      by_cases hba : b.toNat < a.toNat
      · rw [if_pos hba] at h1
        exact absurd h1 (by simp)
      · by_cases hcb : c.toNat < b.toNat
        · rw [if_pos hcb] at h2
          exact absurd h2 (by simp)
        · rw [if_neg hba] at h1
          rw [if_neg hcb] at h2
          rw [if_neg (by omega : ¬a.toNat < c.toNat),
            if_neg (by omega : ¬c.toNat < a.toNat)]
          exact strLeData_trans as bs cs h1 h2

theorem strRel_refl (a : String) : strRel a a := strLeData_refl a.data

theorem strRel_trans (a b c : String) (h1 : strRel a b) (h2 : strRel b c) :
    strRel a c := strLeData_trans a.data b.data c.data h1 h2

theorem strRel_total (a b : String) : strRel a b ∨ strRel b a :=
  strLeData_total a.data b.data

theorem sorted_rel_getLast {α : Type} (R : α → α → Prop) (hrefl : ∀ a, R a a) :
    ∀ (l : List α), l.Pairwise R → ∀ (m : α),
      l.getLast? = some m → ∀ a ∈ l, R a m
  | [], _, _, _, a, ha => absurd ha (List.not_mem_nil a)
  | [b], _, m, hm, a, ha => by
    rw [List.mem_singleton.1 ha]
    have hmb : b = m := Option.some.inj hm
    rw [← hmb]
    exact hrefl b
  | b :: c :: t, hs, m, hm, a, ha => by
    rw [List.getLast?_cons_cons] at hm
    rcases List.mem_cons.1 ha with rfl | ha2
    · exact List.rel_of_pairwise_cons hs (mem_of_getLast? hm)
    · exact sorted_rel_getLast R hrefl (c :: t) (List.Pairwise.of_cons hs) m hm a ha2

/-- Claim C10: `load_dim_subject` reads only the lexicographically
greatest `.parquet` key under the prefix — the emitted rows are exactly
the latest file's records, so earlier batches never contribute — and when
no subject file exists it reports failure, after the truncate has already
been issued; the fact loads instead report success on an empty file
list. -/
theorem subject_latest_file_only (objects : List (String × List SubjectSrc)) :
    (∀ key, get_latest_subject_file (objects.map (fun o => o.1)) = some key →
      key ∈ list_s3_files (objects.map (fun o => o.1)) ∧
      (∀ nm ∈ list_s3_files (objects.map (fun o => o.1)), strRel nm key) ∧
      (load_dim_subject objects).ok = true ∧
      (load_dim_subject objects).rows = (lookupBatch objects key).map mkSubjectRow) ∧
    (get_latest_subject_file (objects.map (fun o => o.1)) = none →
      (load_dim_subject objects).ok = false ∧
      (load_dim_subject objects).rows = [] ∧
      DbAction.truncateTable "Dim_Subject" ∈ (load_dim_subject objects).actions) ∧
    (∀ tss teachers, (load_fact_lessons [] tss teachers).ok = true) ∧
    (∀ lessons tss, (load_fact_homeworks [] lessons tss).ok = true) := by
  refine ⟨?_, ?_, fun _ _ => rfl, fun _ _ => rfl⟩
  · intro key hkey
    have hmem : key ∈ list_s3_files (objects.map (fun o => o.1)) :=
      mem_of_getLast? hkey
    have hsorted : (list_s3_files (objects.map (fun o => o.1))).Pairwise strRel := by
      unfold list_s3_files
      exact @List.sorted_insertionSort String strRel _
        ⟨fun a b => strRel_total a b⟩ ⟨fun a b c => strRel_trans a b c⟩ _
    have hle := sorted_rel_getLast strRel strRel_refl _ hsorted key hkey
    refine ⟨hmem, hle, ?_, ?_⟩
    · simp [load_dim_subject, hkey]
    · simp [load_dim_subject, hkey]
  · intro hnone
    refine ⟨?_, ?_, ?_⟩ <;> simp [load_dim_subject, hnone]

/-- Claim C10 (witness): of the two subject files only `2024-02`'s
record is emitted; with no objects the subject load reports failure while
the fact loads report success. -/
theorem subject_latest_file_only_witness :
    get_latest_subject_file (exSubjects.map (fun o => o.1)) =
      some "full/subjects/2024-02.parquet" ∧
    (load_dim_subject exSubjects).ok = true ∧
    (load_dim_subject exSubjects).rows = [⟨2, 2, "Math"⟩] ∧
    (∀ nm ∈ list_s3_files (exSubjects.map (fun o => o.1)),
      strRel nm "full/subjects/2024-02.parquet") ∧
    (load_dim_subject []).ok = false ∧
    (load_fact_lessons [] [] []).ok = true := by
  have hk : get_latest_subject_file (exSubjects.map (fun o => o.1)) =
      some "full/subjects/2024-02.parquet" := by decide
  have h := (subject_latest_file_only exSubjects).1 _ hk
  refine ⟨hk, h.2.2.1, ?_, h.2.1, rfl, rfl⟩
  rw [h.2.2.2]
  decide
